import Mathlib

/-!
Verification of the Game of Life grid engine in
src/wasm/wasm-module/src/lib.rs (crate wasm-module).

Modelling conventions.  Rust u32 arithmetic is embedded as Nat: every
quantity the program manipulates stays far below 2 to the 32 (the
constructor fixes width = 496 and height = 256, and all index arithmetic is
bounded by width * height = 126976), so u32 arithmetic coincides with Nat
arithmetic on everything the code computes.  Vec indexing, which panics out
of bounds in Rust, is totalised with List.getD; the safety development
proves that every index the code forms is in bounds, justifying the
totalisation.  The js-sys Uint8Array view produced by the cells method is
modelled as the list of byte values of the cells.
-/

/-- Cell enum from the source: Dead (encoded 0) and Alive (encoded 1),
with repr(u8). -/
inductive Cell where
  | Dead : Cell
  | Alive : Cell
deriving DecidableEq, Repr

/-- Byte value of a cell, the source expression (cell as u8). -/
def Cell.toU8 : Cell → Nat
  | Cell.Dead => 0
  | Cell.Alive => 1

/-- Universe struct from the source: width, height, and the row-major cell
buffer. -/
structure Universe where
  width : Nat
  height : Nat
  cells : List Cell
deriving DecidableEq, Repr

/-- Method get_index from the source: (row * self.width + column) as usize. -/
def Universe.get_index (u : Universe) (row column : Nat) : Nat :=
  row * u.width + column

/-- Loop body of live_neighbor_count: one delta_col iteration.  When both
delta values are 0 the iteration is skipped (the continue in the source);
otherwise the u8 value of the cell at row (row + delta_row) % self.height
and column (column + delta_col) % self.width is added to the count. -/
def Universe.lncStep (u : Universe) (row column delta_row : Nat)
    (count delta_col : Nat) : Nat :=
  if delta_row = 0 ∧ delta_col = 0 then
    count
  else
    count + (u.cells.getD (u.get_index ((row + delta_row) % u.height)
      ((column + delta_col) % u.width)) Cell.Dead).toU8

/-- Inner loop of live_neighbor_count: delta_col ranges over the array
[self.width - 1, 0, 1]. -/
def Universe.lncRow (u : Universe) (row column : Nat)
    (count delta_row : Nat) : Nat :=
  List.foldl (u.lncStep row column delta_row) count [u.width - 1, 0, 1]

/-- Method live_neighbor_count from the source: delta_row ranges over the
array [self.height - 1, 0, 1], starting from count = 0. -/
def Universe.live_neighbor_count (u : Universe) (row column : Nat) : Nat :=
  List.foldl (u.lncRow row column) 0 [u.height - 1, 0, 1]

/-- Match expression inside fn tick, deciding the next state of one cell
from its current state and its live neighbor count; the guards appear in
source order (underpopulation, survival, overpopulation, reproduction,
stasis). -/
def nextCell (cell : Cell) (live_neighbors : Nat) : Cell :=
  if cell = Cell.Alive ∧ live_neighbors < 2 then Cell.Dead
  else if cell = Cell.Alive ∧ (live_neighbors = 2 ∨ live_neighbors = 3) then
    Cell.Alive
  else if cell = Cell.Alive ∧ 3 < live_neighbors then Cell.Dead
  else if cell = Cell.Dead ∧ live_neighbors = 3 then Cell.Alive
  else cell

/-- Body of the column loop of tick: writes next[idx] for
idx = get_index(row, col), where the written value is computed from the
pre-tick buffer u.cells only (both the cell itself and its neighbor count
read u.cells, never next). -/
def Universe.tickWrite (u : Universe) (row : Nat) (next : List Cell)
    (col : Nat) : List Cell :=
  next.set (u.get_index row col)
    (nextCell (u.cells.getD (u.get_index row col) Cell.Dead)
      (u.live_neighbor_count row col))

/-- Row loop body of tick: col ranges over 0..self.width. -/
def Universe.tickRow (u : Universe) (next : List Cell) (row : Nat) :
    List Cell :=
  List.foldl (u.tickWrite row) next (List.range u.width)

/-- Method tick from the source: next starts as a clone of self.cells, row
ranges over 0..self.height, and finally self.cells is replaced wholesale by
next.  Width and height are untouched. -/
def Universe.tick (u : Universe) : Universe :=
  { u with cells := List.foldl u.tickRow u.cells (List.range u.height) }

/-- Associated function new from the source.  It takes no arguments: width
and height are the fixed products 124 * 4 and 64 * 4, and cell i is Alive
exactly when i % 2 == 0 or i % 7 == 0. -/
def Universe.new : Universe :=
  let width := 124 * 4
  let height := 64 * 4
  let cells := (List.range (width * height)).map (fun i =>
    if i % 2 = 0 ∨ i % 7 = 0 then Cell.Alive else Cell.Dead)
  { width := width, height := height, cells := cells }

/-- Method width from the source: returns self.width; it is a pure read. -/
def Universe.widthAccessor (u : Universe) : Nat := u.width

/-- Method height from the source: returns self.height; it is a pure read. -/
def Universe.heightAccessor (u : Universe) : Nat := u.height

/-- Method cells from the source: exposes the cell buffer as the sequence of
byte values of its cells (the Uint8Array view, one byte per cell). -/
def Universe.cellsView (u : Universe) : List Nat := u.cells.map Cell.toU8

/-- Concrete 3 by 3 grid holding an all-Alive 2 by 2 block at rows 0, 1 and
columns 0, 1 (a test configuration). -/
def block3 : Universe :=
  Universe.mk 3 3 [Cell.Alive, Cell.Alive, Cell.Dead,
    Cell.Alive, Cell.Alive, Cell.Dead,
    Cell.Dead, Cell.Dead, Cell.Dead]

/-- Concrete 5 by 5 grid holding a horizontal blinker in row 2, columns
1, 2, 3 (a test configuration). -/
def blinker5 : Universe :=
  Universe.mk 5 5 [Cell.Dead, Cell.Dead, Cell.Dead, Cell.Dead, Cell.Dead,
    Cell.Dead, Cell.Dead, Cell.Dead, Cell.Dead, Cell.Dead,
    Cell.Dead, Cell.Alive, Cell.Alive, Cell.Alive, Cell.Dead,
    Cell.Dead, Cell.Dead, Cell.Dead, Cell.Dead, Cell.Dead,
    Cell.Dead, Cell.Dead, Cell.Dead, Cell.Dead, Cell.Dead]

/-! ### Basic bounds on the neighbor count -/

theorem Cell.toU8_le_one (c : Cell) : c.toU8 ≤ 1 := by
  cases c <;> simp [Cell.toU8]

theorem lncStep_le (u : Universe) (row column delta_row count delta_col : Nat) :
    u.lncStep row column delta_row count delta_col ≤ count + 1 := by
  unfold Universe.lncStep
  split
  · omega
  · exact Nat.add_le_add_left (Cell.toU8_le_one _) count

theorem lncStep_self (u : Universe) (row column count : Nat) :
    u.lncStep row column 0 count 0 = count := by
  simp [Universe.lncStep]

theorem lncRow_le (u : Universe) (row column count delta_row : Nat) :
    u.lncRow row column count delta_row ≤ count + 3 := by
  unfold Universe.lncRow
  simp only [List.foldl]
  have h1 := lncStep_le u row column delta_row count (u.width - 1)
  have h2 := lncStep_le u row column delta_row
    (u.lncStep row column delta_row count (u.width - 1)) 0
  have h3 := lncStep_le u row column delta_row
    (u.lncStep row column delta_row
      (u.lncStep row column delta_row count (u.width - 1)) 0) 1
  omega

theorem lncRow_zero_le (u : Universe) (row column count : Nat) :
    u.lncRow row column count 0 ≤ count + 2 := by
  unfold Universe.lncRow
  simp only [List.foldl]
  rw [lncStep_self]
  have h1 := lncStep_le u row column 0 count (u.width - 1)
  have h2 := lncStep_le u row column 0
    (u.lncStep row column 0 count (u.width - 1)) 1
  omega

theorem live_neighbor_count_le_eight (u : Universe) (row column : Nat) :
    u.live_neighbor_count row column ≤ 8 := by
  unfold Universe.live_neighbor_count
  simp only [List.foldl]
  have h1 := lncRow_le u row column 0 (u.height - 1)
  have h2 := lncRow_zero_le u row column
    (u.lncRow row column 0 (u.height - 1))
  have h3 := lncRow_le u row column
    (u.lncRow row column (u.lncRow row column 0 (u.height - 1)) 0) 1
  omega

/-! ### The constructor -/

theorem Universe.new_width : Universe.new.width = 496 := by
  norm_num [Universe.new]

theorem Universe.new_height : Universe.new.height = 256 := by
  norm_num [Universe.new]

theorem Universe.new_length : Universe.new.cells.length = 126976 := by
  norm_num [Universe.new]

theorem Universe.new_getD (i : Nat) (hi : i < 126976) :
    Universe.new.cells.getD i Cell.Dead =
      if i % 2 = 0 ∨ i % 7 = 0 then Cell.Alive else Cell.Dead := by
  have hi' : i < 124 * 4 * (64 * 4) := by omega
  simp [Universe.new, List.getD_eq_getElem?_getD, List.getElem?_map,
    List.getElem?_range hi']

/-! ### Tick preserves the shape of the grid -/

theorem tickWrite_length (u : Universe) (row : Nat) (next : List Cell)
    (col : Nat) : (u.tickWrite row next col).length = next.length :=
  List.length_set next _ _

theorem foldl_tickWrite_length (u : Universe) (row : Nat) (l : List Nat) :
    ∀ next : List Cell,
      (List.foldl (u.tickWrite row) next l).length = next.length := by
  induction l with
  | nil => intro next; rfl
  | cons a l ih =>
    intro next
    rw [List.foldl_cons, ih, tickWrite_length]

theorem tickRow_length (u : Universe) (next : List Cell) (row : Nat) :
    (u.tickRow next row).length = next.length :=
  foldl_tickWrite_length u row (List.range u.width) next

theorem tick_length (u : Universe) : u.tick.cells.length = u.cells.length := by
  unfold Universe.tick
  have h : ∀ (l : List Nat) (next : List Cell),
      (List.foldl u.tickRow next l).length = next.length := by
    intro l
    induction l with
    | nil => intro next; rfl
    | cons a l ih =>
      intro next
      rw [List.foldl_cons, ih, tickRow_length]
  exact h (List.range u.height) u.cells

theorem tick_width (u : Universe) : u.tick.width = u.width := rfl

theorem tick_height (u : Universe) : u.tick.height = u.height := rfl

/-! ### The wraparound coordinate formula -/

/-- Wraparound coordinate expression from live_neighbor_count:
(position + delta) % dimension, the very expression used for neighbor_row
(dimension = height) and neighbor_col (dimension = width). -/
def neighborCoord (dim position delta : Nat) : Nat := (position + delta) % dim

/-- The loop body of live_neighbor_count reads its neighbor cell exactly at
the coordinates given by neighborCoord. -/
theorem lncStep_eq_neighborCoord (u : Universe)
    (row column delta_row count delta_col : Nat) :
    u.lncStep row column delta_row count delta_col =
      if delta_row = 0 ∧ delta_col = 0 then count
      else count + (u.cells.getD
        (u.get_index (neighborCoord u.height row delta_row)
          (neighborCoord u.width column delta_col)) Cell.Dead).toU8 := rfl

/-- C5: for every height at least 1 and row below height, the delta value
height - 1 used by the implementation yields, through
(row + delta) % height, exactly the mathematical toroidal predecessor row
(row - 1 + height) % height computed in exact integer arithmetic (no
unsigned underflow occurs since nothing is ever subtracted from row); delta
0 yields row itself and delta 1 yields (row + 1) % height.  The same
statement applies to columns with width in place of height. -/
theorem C5_wraparound_formula_exact (height row : Nat)
    (hh : 1 ≤ height) (hr : row < height) :
    neighborCoord height row (height - 1) =
      (((row : Int) - 1 + height) % height).toNat ∧
    neighborCoord height row 0 = row ∧
    neighborCoord height row 1 = (row + 1) % height ∧
    (row + (height - 1)) % height =
      (((row : Int) - 1 + height) % height).toNat := by
  have key : (row + (height - 1)) % height =
      (((row : Int) - 1 + height) % height).toNat := by
    have e1 : row + (height - 1) = row + height - 1 := by omega
    have e2 : ((row : Int) - 1 + height) = ((row + height - 1 : Nat) : Int) := by
      push_cast [Nat.cast_sub (by omega : 1 ≤ row + height)]
      ring
    rw [e1, e2, ← Int.natCast_mod, Int.toNat_natCast]
  exact ⟨key, by simp [neighborCoord, Nat.mod_eq_of_lt hr], rfl, key⟩

/-- Witness for C5 at height = 5, row = 0: the wrapped predecessor of row 0
is row 4. -/
theorem C5_witness :
    1 ≤ 5 ∧ 0 < 5 ∧ neighborCoord 5 0 (5 - 1) =
      (((0 : Int) - 1 + 5) % 5).toNat :=
  ⟨by decide, by decide,
    (C5_wraparound_formula_exact 5 0 (by decide) (by decide)).1⟩

/-- C6: the reference constructor produces width 496, height 256, and cell i
Alive exactly when i % 2 = 0 or i % 7 = 0, for every i below
width * height. -/
theorem C6_reference_pattern :
    Universe.new.width = 496 ∧ Universe.new.height = 256 ∧
    ∀ i, i < Universe.new.width * Universe.new.height →
      Universe.new.cells.getD i Cell.Dead =
        if i % 2 = 0 ∨ i % 7 = 0 then Cell.Alive else Cell.Dead := by
  refine ⟨Universe.new_width, Universe.new_height, ?_⟩
  intro i hi
  refine Universe.new_getD i ?_
  rw [Universe.new_width, Universe.new_height] at hi
  omega

/-- Witness for C6 at i = 0 (an even index, hence Alive). -/
theorem C6_witness :
    0 < Universe.new.width * Universe.new.height ∧
    Universe.new.cells.getD 0 Cell.Dead =
      if 0 % 2 = 0 ∨ 0 % 7 = 0 then Cell.Alive else Cell.Dead :=
  ⟨by rw [Universe.new_width, Universe.new_height]; omega,
    C6_reference_pattern.2.2 0
      (by rw [Universe.new_width, Universe.new_height]; omega)⟩

/-- C3 counterexample: the constructor of the code takes no width, height or
pattern argument and has no failure path.  The only construction the code
offers is the closed value Universe.new; invoked as the sole constructor it
yields the fixed 496 by 256 grid with 126976 cells, so it cannot produce
(for instance) the one-cell buffer the claimed parameterized constructor
would produce for width = height = 1, and no InvalidDimensions error
exists anywhere in the code. -/
theorem C3_counterexample :
    Universe.new.width = 496 ∧ Universe.new.height = 256 ∧
    Universe.new.cells.length = 126976 ∧
    ¬ Universe.new.cells.length = 1 * 1 := by
  refine ⟨Universe.new_width, Universe.new_height, Universe.new_length, ?_⟩
  rw [Universe.new_length]
  omega

/-- C3 amended: construction takes no parameters and cannot fail; it always
produces the grid with width 496 and height 256 (both positive, so the
degenerate zero-dimension case cannot arise), whose buffer has length
width * height and whose cell i is Alive exactly when i % 2 = 0 or
i % 7 = 0. -/
theorem C3_constructor_behavior (i : Nat)
    (hi : i < Universe.new.width * Universe.new.height) :
    Universe.new.width = 496 ∧ Universe.new.height = 256 ∧
    0 < Universe.new.width ∧ 0 < Universe.new.height ∧
    Universe.new.cells.length = Universe.new.width * Universe.new.height ∧
    Universe.new.cells.getD i Cell.Dead =
      if i % 2 = 0 ∨ i % 7 = 0 then Cell.Alive else Cell.Dead := by
  rw [Universe.new_width, Universe.new_height] at hi ⊢
  refine ⟨rfl, rfl, by omega, by omega, ?_, Universe.new_getD i (by omega)⟩
  rw [Universe.new_length]

/-- Witness for the amended C3 at i = 1 (odd, not divisible by 7, hence
Dead). -/
theorem C3_witness :
    1 < Universe.new.width * Universe.new.height ∧
    Universe.new.cells.getD 1 Cell.Dead =
      if 1 % 2 = 0 ∨ 1 % 7 = 0 then Cell.Alive else Cell.Dead :=
  ⟨by rw [Universe.new_width, Universe.new_height]; omega,
    (C3_constructor_behavior 1
      (by rw [Universe.new_width, Universe.new_height]; omega)).2.2.2.2.2⟩

/-- C2: the buffer length equals width * height immediately after
construction; tick never changes width, height or the buffer length (the
buffer is never reallocated to a different length), so the invariant is
preserved by every tick. -/
theorem C2_length_invariant :
    (Universe.new.cells.length =
      Universe.new.width * Universe.new.height) ∧
    (∀ u : Universe, u.tick.width = u.width ∧ u.tick.height = u.height ∧
      u.tick.cells.length = u.cells.length) ∧
    ∀ u : Universe, u.cells.length = u.width * u.height →
      u.tick.cells.length = u.tick.width * u.tick.height := by
  refine ⟨?_, fun u => ⟨rfl, rfl, tick_length u⟩, fun u hu => ?_⟩
  · rw [Universe.new_length, Universe.new_width, Universe.new_height]
  · rw [tick_length, tick_width, tick_height, hu]

/-- Witness for C2 on a concrete 2 by 2 grid. -/
theorem C2_witness :
    (Universe.mk 2 2 [Cell.Dead, Cell.Dead, Cell.Dead, Cell.Dead]).cells.length =
      (Universe.mk 2 2 [Cell.Dead, Cell.Dead, Cell.Dead, Cell.Dead]).width *
        (Universe.mk 2 2 [Cell.Dead, Cell.Dead, Cell.Dead, Cell.Dead]).height ∧
    (Universe.mk 2 2 [Cell.Dead, Cell.Dead, Cell.Dead, Cell.Dead]).tick.cells.length =
      (Universe.mk 2 2 [Cell.Dead, Cell.Dead, Cell.Dead, Cell.Dead]).tick.width *
        (Universe.mk 2 2 [Cell.Dead, Cell.Dead, Cell.Dead, Cell.Dead]).tick.height :=
  ⟨by decide,
    C2_length_invariant.2.2
      (Universe.mk 2 2 [Cell.Dead, Cell.Dead, Cell.Dead, Cell.Dead]) (by decide)⟩

/-- C9: tick modifies only the cells field: width and height are unchanged
by one tick and by any number of iterated ticks (hence they keep their
construction-time values), and the width and height accessors are pure
reads returning exactly those fields. -/
theorem C9_dimensions_fixed (u : Universe) (n : Nat) :
    u.tick.width = u.width ∧ u.tick.height = u.height ∧
    u.widthAccessor = u.width ∧ u.heightAccessor = u.height ∧
    u.tick.widthAccessor = u.widthAccessor ∧
    u.tick.heightAccessor = u.heightAccessor ∧
    (Universe.tick^[n] u).width = u.width ∧
    (Universe.tick^[n] u).height = u.height := by
  refine ⟨rfl, rfl, rfl, rfl, rfl, rfl, ?_, ?_⟩ <;>
  · induction n with
    | zero => rfl
    | succ n ih => rw [Function.iterate_succ_apply', ← ih]; rfl

/-! ### Index safety -/

theorem get_index_lt (u : Universe) {row col : Nat}
    (hrow : row < u.height) (hcol : col < u.width) :
    u.get_index row col < u.width * u.height := by
  unfold Universe.get_index
  calc row * u.width + col < row * u.width + u.width := by omega
    _ = (row + 1) * u.width := by ring
    _ ≤ u.height * u.width := Nat.mul_le_mul_right _ (by omega)
    _ = u.width * u.height := Nat.mul_comm _ _

/-- C10: on a valid grid (positive dimensions, buffer length width * height,
product below 2 to the 32), every index formed by tick and by
live_neighbor_count is strictly below the buffer length: the direct index
of each visited cell, and the index of each toroidal neighbor for every
delta pair drawn from the arrays [height - 1, 0, 1] and [width - 1, 0, 1].
Hence no out-of-bounds access occurs and both operations are total. -/
theorem C10_index_safety (u : Universe) (hw : 1 ≤ u.width)
    (hh : 1 ≤ u.height) (hlen : u.cells.length = u.width * u.height)
    (hov : u.width * u.height < 4294967296) :
    (∀ row, row < u.height → ∀ col, col < u.width →
      u.get_index row col < u.cells.length) ∧
    (∀ row, row < u.height → ∀ col, col < u.width →
      ∀ delta_row ∈ [u.height - 1, 0, 1], ∀ delta_col ∈ [u.width - 1, 0, 1],
        u.get_index ((row + delta_row) % u.height)
          ((col + delta_col) % u.width) < u.cells.length) := by
  constructor
  · intro row hrow col hcol
    rw [hlen]
    exact get_index_lt u hrow hcol
  · intro row _ col _ delta_row _ delta_col _
    rw [hlen]
    exact get_index_lt u (Nat.mod_lt _ (by omega)) (Nat.mod_lt _ (by omega))

/-- Witness for C10 on a concrete 2 by 2 grid: the index of cell (1, 1) is
in bounds. -/
theorem C10_witness :
    (1 ≤ (Universe.mk 2 2 [Cell.Dead, Cell.Dead, Cell.Dead, Cell.Dead]).width ∧
      (Universe.mk 2 2 [Cell.Dead, Cell.Dead, Cell.Dead, Cell.Dead]).cells.length = 2 * 2) ∧
    (Universe.mk 2 2 [Cell.Dead, Cell.Dead, Cell.Dead, Cell.Dead]).get_index 1 1 <
      (Universe.mk 2 2 [Cell.Dead, Cell.Dead, Cell.Dead, Cell.Dead]).cells.length :=
  ⟨⟨by decide, by decide⟩,
    (C10_index_safety (Universe.mk 2 2 [Cell.Dead, Cell.Dead, Cell.Dead, Cell.Dead])
      (by decide) (by decide) (by decide) (by decide)).1 1 (by decide) 1 (by decide)⟩

/-- C4 counterexample: on the 1 by 1 grid whose single cell is Alive the
neighbor count is 5, not the claimed 8.  With height = width = 1 the delta
arrays are [0, 0, 1], so the self-skip condition delta_row = 0 and
delta_col = 0 also fires for the delta value height - 1 = 0, skipping four
of the nine delta pairs instead of one. -/
theorem C4_counterexample :
    (Universe.mk 1 1 [Cell.Alive]).live_neighbor_count 0 0 = 5 ∧
    ¬ (Universe.mk 1 1 [Cell.Alive]).live_neighbor_count 0 0 = 8 := by
  decide

/-- C4 amended: on every grid with positive dimensions the neighbor count of
every cell lies in [0, 8]; but on the 1 by 1 grid whose single cell is
Alive the count is 5 (not 8), because the delta value height - 1 = 0
collides with the explicit 0 delta and the self-skip drops four of the nine
delta pairs. -/
theorem C4_neighbor_count_range (u : Universe) (row col : Nat)
    (hw : 1 ≤ u.width) (hh : 1 ≤ u.height)
    (hrow : row < u.height) (hcol : col < u.width) :
    u.live_neighbor_count row col ≤ 8 ∧
    (Universe.mk 1 1 [Cell.Alive]).live_neighbor_count 0 0 = 5 :=
  ⟨live_neighbor_count_le_eight u row col, by decide⟩

/-- Witness for the amended C4 on the 1 by 1 all-Alive grid itself. -/
theorem C4_witness :
    (1 ≤ (Universe.mk 1 1 [Cell.Alive]).width ∧
      0 < (Universe.mk 1 1 [Cell.Alive]).height) ∧
    (Universe.mk 1 1 [Cell.Alive]).live_neighbor_count 0 0 ≤ 8 :=
  ⟨⟨by decide, by decide⟩,
    (C4_neighbor_count_range (Universe.mk 1 1 [Cell.Alive]) 0 0
      (by decide) (by decide) (by decide) (by decide)).1⟩

/-! ### Pointwise characterization of tick -/

/-- Value written by tick at cell (row, col): the transition function
applied to the pre-tick cell and its pre-tick neighbor count. -/
def Universe.writeVal (u : Universe) (row col : Nat) : Cell :=
  nextCell (u.cells.getD (u.get_index row col) Cell.Dead)
    (u.live_neighbor_count row col)

theorem getD_set (l : List Cell) (i j : Nat) (a : Cell) :
    (l.set i a).getD j Cell.Dead =
      if i = j ∧ i < l.length then a else l.getD j Cell.Dead := by
  rw [List.getD_eq_getElem?_getD, List.getD_eq_getElem?_getD,
    List.getElem?_set]
  by_cases h1 : i = j
  · subst h1
    by_cases h2 : i < l.length
    · simp [h2]
    · simp [h2, List.getElem?_eq_none (by omega : l.length ≤ i)]
  · simp [h1]

theorem div_of_window {w m j : Nat} (h1 : m * w ≤ j) (h2 : j < m * w + w) :
    j / w = m := by
  refine Nat.div_eq_of_lt_le h1 ?_
  rw [Nat.succ_mul]
  omega

theorem mod_of_window {w m j : Nat} (h1 : m * w ≤ j) (h2 : j < m * w + w) :
    j % w = j - m * w := by
  have hd := Nat.div_add_mod j w
  rw [div_of_window h1 h2, Nat.mul_comm] at hd
  omega

theorem foldl_tickWrite_getD (u : Universe) (row : Nat) (n : Nat) :
    ∀ (next : List Cell), next.length = u.cells.length → ∀ j : Nat,
      (List.foldl (u.tickWrite row) next (List.range n)).getD j Cell.Dead =
        if row * u.width ≤ j ∧ j < row * u.width + n ∧ j < u.cells.length then
          u.writeVal row (j - row * u.width)
        else next.getD j Cell.Dead := by
  induction n with
  | zero =>
    intro next hnext j
    rw [List.range_zero, List.foldl_nil, if_neg (by omega)]
  | succ n ih =>
    intro next hnext j
    rw [List.range_succ, List.foldl_append, List.foldl_cons, List.foldl_nil]
    have hwrite : u.tickWrite row
        (List.foldl (u.tickWrite row) next (List.range n)) n =
        (List.foldl (u.tickWrite row) next (List.range n)).set
          (row * u.width + n) (u.writeVal row n) := rfl
    rw [hwrite, getD_set, foldl_tickWrite_length, hnext, ih next hnext j]
    split_ifs with hset hwin hwin <;> try rfl
    · rw [show j - row * u.width = n from by omega]
    · omega
    · omega
    · omega

theorem foldl_tickRow_length (u : Universe) (l : List Nat) :
    ∀ next : List Cell,
      (List.foldl u.tickRow next l).length = next.length := by
  induction l with
  | nil => intro next; rfl
  | cons a l ih =>
    intro next
    rw [List.foldl_cons, ih, tickRow_length]

theorem foldl_tickRow_getD (u : Universe) (m : Nat) :
    ∀ j : Nat,
      (List.foldl u.tickRow u.cells (List.range m)).getD j Cell.Dead =
        if j < m * u.width ∧ j < u.cells.length then
          u.writeVal (j / u.width) (j % u.width)
        else u.cells.getD j Cell.Dead := by
  induction m with
  | zero =>
    intro j
    rw [List.range_zero, List.foldl_nil, if_neg (by omega)]
  | succ m ih =>
    intro j
    rw [List.range_succ, List.foldl_append, List.foldl_cons, List.foldl_nil]
    have hrow : u.tickRow (List.foldl u.tickRow u.cells (List.range m)) m =
        List.foldl (u.tickWrite m)
          (List.foldl u.tickRow u.cells (List.range m))
          (List.range u.width) := rfl
    rw [hrow, foldl_tickWrite_getD u m u.width _
      (foldl_tickRow_length u (List.range m) u.cells) j, ih j]
    have hsm : (m + 1) * u.width = m * u.width + u.width := by ring
    split_ifs with hwin hold hold hnew <;> try rfl
    · rw [div_of_window (And.left hwin) (by omega),
        mod_of_window (And.left hwin) (by omega)]
    · omega
    · omega
    · omega

theorem tick_getD (u : Universe) (hlen : u.cells.length = u.width * u.height)
    {row col : Nat} (hrow : row < u.height) (hcol : col < u.width) :
    u.tick.cells.getD (u.get_index row col) Cell.Dead = u.writeVal row col := by
  have hj : u.get_index row col < u.width * u.height := get_index_lt u hrow hcol
  have hcells : u.tick.cells =
      List.foldl u.tickRow u.cells (List.range u.height) := rfl
  have hwin1 : row * u.width ≤ u.get_index row col := by
    unfold Universe.get_index
    omega
  have hwin2 : u.get_index row col < row * u.width + u.width := by
    unfold Universe.get_index
    omega
  rw [hcells, foldl_tickRow_getD u u.height (u.get_index row col),
    if_pos ⟨by rw [Nat.mul_comm]; exact hj, by rw [hlen]; exact hj⟩,
    div_of_window hwin1 hwin2, mod_of_window hwin1 hwin2,
    show u.get_index row col - row * u.width = col from by
      unfold Universe.get_index; omega]

/-- C1: for every validly constructed grid (buffer length width * height),
the post-tick state of every cell (row, col) is the transition function
nextCell, the transcription of the source match (Alive with fewer than 2
live neighbors dies, Alive with 2 or 3 survives, Alive with more than 3
dies, Dead with exactly 3 becomes Alive, everything else is unchanged),
applied to that cell's pre-tick state and its pre-tick live-neighbor count:
both arguments on the right-hand side are read from u.cells, the
generation-N buffer, never from the buffer under construction. -/
theorem C1_tick_next_generation (u : Universe)
    (hlen : u.cells.length = u.width * u.height)
    (row col : Nat) (hrow : row < u.height) (hcol : col < u.width) :
    u.tick.cells.getD (u.get_index row col) Cell.Dead =
      nextCell (u.cells.getD (u.get_index row col) Cell.Dead)
        (u.live_neighbor_count row col) :=
  tick_getD u hlen hrow hcol

/-- Witness for C1 on a concrete 2 by 2 grid with two Alive cells. -/
theorem C1_witness :
    ((Universe.mk 2 2 [Cell.Alive, Cell.Alive, Cell.Dead, Cell.Dead]).cells.length =
      (Universe.mk 2 2 [Cell.Alive, Cell.Alive, Cell.Dead, Cell.Dead]).width *
        (Universe.mk 2 2 [Cell.Alive, Cell.Alive, Cell.Dead, Cell.Dead]).height ∧
      0 < 2 ∧ 1 < 2) ∧
    (Universe.mk 2 2 [Cell.Alive, Cell.Alive, Cell.Dead, Cell.Dead]).tick.cells.getD
        ((Universe.mk 2 2 [Cell.Alive, Cell.Alive, Cell.Dead, Cell.Dead]).get_index 0 1)
        Cell.Dead =
      nextCell
        ((Universe.mk 2 2 [Cell.Alive, Cell.Alive, Cell.Dead, Cell.Dead]).cells.getD
          ((Universe.mk 2 2 [Cell.Alive, Cell.Alive, Cell.Dead, Cell.Dead]).get_index 0 1)
          Cell.Dead)
        ((Universe.mk 2 2 [Cell.Alive, Cell.Alive, Cell.Dead, Cell.Dead]).live_neighbor_count 0 1) :=
  ⟨⟨by decide, by decide, by decide⟩,
    C1_tick_next_generation
      (Universe.mk 2 2 [Cell.Alive, Cell.Alive, Cell.Dead, Cell.Dead])
      (by decide) 0 1 (by decide) (by decide)⟩

/-! ### The neighbor count as an eight-term sum -/

/-- Value contributed by one neighbor delta pair. -/
def nval (u : Universe) (row column dr dc : Nat) : Nat :=
  (u.cells.getD (u.get_index ((row + dr) % u.height)
    ((column + dc) % u.width)) Cell.Dead).toU8

theorem lncStep_eq_of_dr_ne (u : Universe) (row column count dc : Nat)
    {dr : Nat} (hdr : dr ≠ 0) :
    u.lncStep row column dr count dc = count + nval u row column dr dc := by
  unfold Universe.lncStep nval
  rw [if_neg (fun h => hdr h.1)]

theorem lncStep_eq_of_dc_ne (u : Universe) (row column dr count : Nat)
    {dc : Nat} (hdc : dc ≠ 0) :
    u.lncStep row column dr count dc = count + nval u row column dr dc := by
  unfold Universe.lncStep nval
  rw [if_neg (fun h => hdc h.2)]

theorem lncRow_eq_of_dr_ne (u : Universe) (row column count : Nat)
    {dr : Nat} (hdr : dr ≠ 0) :
    u.lncRow row column count dr =
      count + nval u row column dr (u.width - 1) + nval u row column dr 0 +
        nval u row column dr 1 := by
  unfold Universe.lncRow
  simp only [List.foldl]
  rw [lncStep_eq_of_dr_ne u row column _ _ hdr,
    lncStep_eq_of_dr_ne u row column _ _ hdr,
    lncStep_eq_of_dr_ne u row column _ _ hdr]

theorem lncRow_zero_eq (u : Universe) (row column count : Nat)
    (hw : 2 ≤ u.width) :
    u.lncRow row column count 0 =
      count + nval u row column 0 (u.width - 1) + nval u row column 0 1 := by
  unfold Universe.lncRow
  simp only [List.foldl]
  rw [lncStep_eq_of_dc_ne u row column _ _ (by omega : u.width - 1 ≠ 0),
    lncStep_self, lncStep_eq_of_dc_ne u row column _ _ (by omega : (1 : Nat) ≠ 0)]

theorem lnc_eq_eight_terms (u : Universe) (row column : Nat)
    (hh : 2 ≤ u.height) (hw : 2 ≤ u.width) :
    u.live_neighbor_count row column =
      nval u row column (u.height - 1) (u.width - 1) +
      nval u row column (u.height - 1) 0 +
      nval u row column (u.height - 1) 1 +
      nval u row column 0 (u.width - 1) +
      nval u row column 0 1 +
      nval u row column 1 (u.width - 1) +
      nval u row column 1 0 +
      nval u row column 1 1 := by
  unfold Universe.live_neighbor_count
  simp only [List.foldl]
  rw [lncRow_eq_of_dr_ne u row column _ (by omega : u.height - 1 ≠ 0),
    lncRow_zero_eq u row column _ hw,
    lncRow_eq_of_dr_ne u row column _ (by omega : (1 : Nat) ≠ 0)]
  omega

/-! ### Neighbor counts on product patterns -/

theorem nval_pattern (u : Universe) (A B : Nat → Prop)
    [DecidablePred A] [DecidablePred B]
    (hh : 0 < u.height) (hw : 0 < u.width)
    (hcell : ∀ ρ, ρ < u.height → ∀ γ, γ < u.width →
      u.cells.getD (u.get_index ρ γ) Cell.Dead =
        if A ρ ∧ B γ then Cell.Alive else Cell.Dead)
    (row column : Nat) (dr dc : Nat) :
    nval u row column dr dc =
      if A ((row + dr) % u.height) ∧ B ((column + dc) % u.width) then 1
      else 0 := by
  unfold nval
  rw [hcell _ (Nat.mod_lt _ hh) _ (Nat.mod_lt _ hw)]
  split_ifs <;> rfl

theorem indicator_product (p1 p2 p3 q1 q2 q3 : Prop)
    [Decidable p1] [Decidable p2] [Decidable p3]
    [Decidable q1] [Decidable q2] [Decidable q3] :
    ((if p1 ∧ q1 then 1 else 0) + (if p1 ∧ q2 then 1 else 0) +
      (if p1 ∧ q3 then 1 else 0) + (if p2 ∧ q1 then 1 else 0) +
      (if p2 ∧ q3 then 1 else 0) + (if p3 ∧ q1 then 1 else 0) +
      (if p3 ∧ q2 then 1 else 0) + (if p3 ∧ q3 then 1 else 0) : Nat)
    = ((if p1 then 1 else 0) + (if p2 then 1 else 0) + (if p3 then 1 else 0))
      * ((if q1 then 1 else 0) + (if q2 then 1 else 0) + (if q3 then 1 else 0))
      - (if p2 ∧ q2 then 1 else 0) := by
  by_cases h1 : p1 <;> by_cases h2 : p2 <;> by_cases h3 : p3 <;>
    by_cases h4 : q1 <;> by_cases h5 : q2 <;> by_cases h6 : q3 <;>
    norm_num [h1, h2, h3, h4, h5, h6]

theorem lnc_factored (u : Universe) (A B : Nat → Prop)
    [DecidablePred A] [DecidablePred B]
    (hh : 2 ≤ u.height) (hw : 2 ≤ u.width)
    (hcell : ∀ ρ, ρ < u.height → ∀ γ, γ < u.width →
      u.cells.getD (u.get_index ρ γ) Cell.Dead =
        if A ρ ∧ B γ then Cell.Alive else Cell.Dead)
    (row col : Nat) (hrow : row < u.height) (hcol : col < u.width) :
    u.live_neighbor_count row col =
      ((if A ((row + (u.height - 1)) % u.height) then 1 else 0) +
        (if A row then 1 else 0) +
        (if A ((row + 1) % u.height) then 1 else 0))
      * ((if B ((col + (u.width - 1)) % u.width) then 1 else 0) +
          (if B col then 1 else 0) +
          (if B ((col + 1) % u.width) then 1 else 0))
      - (if A row ∧ B col then 1 else 0) := by
  rw [lnc_eq_eight_terms u row col hh hw]
  simp only [nval_pattern u A B (by omega) (by omega) hcell row col]
  rw [show (row + 0) % u.height = row by
      rw [Nat.add_zero, Nat.mod_eq_of_lt hrow],
    show (col + 0) % u.width = col by
      rw [Nat.add_zero, Nat.mod_eq_of_lt hcol]]
  exact indicator_product _ _ _ _ _ _

/-! ### Toroidal difference arithmetic

For positions x, t below n the quantity (x + n - t) % n is the toroidal
distance from t to x; each of the nine possible equalities between a
wrapped neighbor coordinate of x and a wrapped target coordinate of t is
equivalent to this difference taking one fixed value. -/

theorem mod_eq_mod_iff_int (n A B : Nat) :
    A % n = B % n ↔ (A : Int) % n = (B : Int) % n := by
  rw [← Nat.cast_inj (R := Int), Int.natCast_mod, Int.natCast_mod]

theorem mod_shift_eq_iff (n x t a b : Nat) (ht : t ≤ x + n) (ha : a ≤ n + b) :
    ((x + a) % n = (t + b) % n) ↔ ((x + n - t) % n = (n + b - a) % n) := by
  rw [mod_eq_mod_iff_int, mod_eq_mod_iff_int,
    Int.emod_eq_emod_iff_emod_sub_eq_zero,
    Int.emod_eq_emod_iff_emod_sub_eq_zero]
  have e1 : ((x + a : Nat) : Int) - ((t + b : Nat) : Int)
      = ((x + n - t : Nat) : Int) - ((n + b - a : Nat) : Int) := by
    omega
  rw [e1]

theorem hitM0 (n x t : Nat) (hn : 3 ≤ n) (hx : x < n) (ht : t < n) :
    (x + (n - 1)) % n = t ↔ (x + n - t) % n = 1 := by
  have base := mod_shift_eq_iff n x t (n - 1) 0 (by omega) (by omega)
  rw [Nat.add_zero t, Nat.mod_eq_of_lt ht,
    show n + 0 - (n - 1) = 1 from by omega,
    Nat.mod_eq_of_lt (by omega : 1 < n)] at base
  exact base

theorem hit00 (n x t : Nat) (hn : 3 ≤ n) (hx : x < n) (ht : t < n) :
    x = t ↔ (x + n - t) % n = 0 := by
  have base := mod_shift_eq_iff n x t 0 0 (by omega) (by omega)
  rw [Nat.add_zero x, Nat.add_zero t, Nat.mod_eq_of_lt hx, Nat.mod_eq_of_lt ht,
    show n + 0 - 0 = n from by omega, Nat.mod_self] at base
  exact base

theorem hit10 (n x t : Nat) (hn : 3 ≤ n) (hx : x < n) (ht : t < n) :
    (x + 1) % n = t ↔ (x + n - t) % n = n - 1 := by
  have base := mod_shift_eq_iff n x t 1 0 (by omega) (by omega)
  rw [Nat.add_zero t, Nat.mod_eq_of_lt ht,
    show n + 0 - 1 = n - 1 from by omega,
    Nat.mod_eq_of_lt (by omega : n - 1 < n)] at base
  exact base

theorem hitM1 (n x t : Nat) (hn : 3 ≤ n) (hx : x < n) (ht : t < n) :
    (x + (n - 1)) % n = (t + 1) % n ↔ (x + n - t) % n = 2 := by
  have base := mod_shift_eq_iff n x t (n - 1) 1 (by omega) (by omega)
  rw [show n + 1 - (n - 1) = 2 from by omega,
    Nat.mod_eq_of_lt (by omega : 2 < n)] at base
  exact base

theorem hit01 (n x t : Nat) (hn : 3 ≤ n) (hx : x < n) (ht : t < n) :
    x = (t + 1) % n ↔ (x + n - t) % n = 1 := by
  have base := mod_shift_eq_iff n x t 0 1 (by omega) (by omega)
  rw [Nat.add_zero x, Nat.mod_eq_of_lt hx,
    show n + 1 - 0 = n + 1 from by omega, Nat.add_mod_left,
    Nat.mod_eq_of_lt (by omega : 1 < n)] at base
  exact base

theorem hit11 (n x t : Nat) (hn : 3 ≤ n) (hx : x < n) (ht : t < n) :
    (x + 1) % n = (t + 1) % n ↔ (x + n - t) % n = 0 := by
  have base := mod_shift_eq_iff n x t 1 1 (by omega) (by omega)
  rw [show n + 1 - 1 = n from by omega, Nat.mod_self] at base
  exact base

theorem hitMM (n x t : Nat) (hn : 3 ≤ n) (hx : x < n) (ht : t < n) :
    (x + (n - 1)) % n = (t + (n - 1)) % n ↔ (x + n - t) % n = 0 := by
  have base := mod_shift_eq_iff n x t (n - 1) (n - 1) (by omega) (by omega)
  rw [show n + (n - 1) - (n - 1) = n from by omega, Nat.mod_self] at base
  exact base

theorem hit0M (n x t : Nat) (hn : 3 ≤ n) (hx : x < n) (ht : t < n) :
    x = (t + (n - 1)) % n ↔ (x + n - t) % n = n - 1 := by
  have base := mod_shift_eq_iff n x t 0 (n - 1) (by omega) (by omega)
  rw [Nat.add_zero x, Nat.mod_eq_of_lt hx,
    show n + (n - 1) - 0 = n + (n - 1) from by omega, Nat.add_mod_left,
    Nat.mod_eq_of_lt (by omega : n - 1 < n)] at base
  exact base

theorem hit1M (n x t : Nat) (hn : 3 ≤ n) (hx : x < n) (ht : t < n) :
    (x + 1) % n = (t + (n - 1)) % n ↔ (x + n - t) % n = n - 2 := by
  have base := mod_shift_eq_iff n x t 1 (n - 1) (by omega) (by omega)
  rw [show n + (n - 1) - 1 = n + (n - 2) from by omega, Nat.add_mod_left,
    Nat.mod_eq_of_lt (by omega : n - 2 < n)] at base
  exact base

theorem wrap_pred_interior (n t : Nat) (h1 : 1 ≤ t) (h2 : t < n) :
    (t + (n - 1)) % n = t - 1 := by
  rw [show t + (n - 1) = n + (t - 1) from by omega, Nat.add_mod_left,
    Nat.mod_eq_of_lt (by omega)]

/-! ### Buffer extensionality through getD -/

theorem getD_eq_getElem (l : List Cell) (j : Nat) (h : j < l.length) :
    l.getD j Cell.Dead = l[j] := by
  rw [List.getD_eq_getElem?_getD, List.getElem?_eq_getElem h]
  rfl

theorem cells_eq_of_getD (l1 l2 : List Cell) (hlen : l1.length = l2.length)
    (h : ∀ j, j < l1.length → l1.getD j Cell.Dead = l2.getD j Cell.Dead) :
    l1 = l2 := by
  refine List.ext_getElem hlen ?_
  intro j h1 h2
  rw [← getD_eq_getElem _ _ h1, ← getD_eq_getElem _ _ h2]
  exact h j h1

theorem tick_cells_eq_of_pointwise (u : Universe) (hw : 0 < u.width)
    (hlen : u.cells.length = u.width * u.height)
    (h : ∀ ρ, ρ < u.height → ∀ γ, γ < u.width →
      u.tick.cells.getD (u.get_index ρ γ) Cell.Dead =
        u.cells.getD (u.get_index ρ γ) Cell.Dead) :
    u.tick.cells = u.cells := by
  refine cells_eq_of_getD _ _ (tick_length u) ?_
  intro j hj
  rw [tick_length] at hj
  have hj' : j < u.height * u.width := by
    rw [Nat.mul_comm, ← hlen]
    exact hj
  have hρ : j / u.width < u.height := by
    rw [Nat.div_lt_iff_lt_mul hw]
    exact hj'
  have hγ : j % u.width < u.width := Nat.mod_lt _ hw
  have hidx : u.get_index (j / u.width) (j % u.width) = j := by
    unfold Universe.get_index
    rw [Nat.mul_comm]
    exact Nat.div_add_mod j u.width
  have hpt := h (j / u.width) hρ (j % u.width) hγ
  rw [hidx] at hpt
  exact hpt

/-! ### The 2 by 2 block -/

theorem block_lnc (u : Universe) (r c : Nat)
    (hh : 3 ≤ u.height) (hw : 3 ≤ u.width) (hr : r < u.height)
    (hc : c < u.width)
    (hcell : ∀ ρ, ρ < u.height → ∀ γ, γ < u.width →
      u.cells.getD (u.get_index ρ γ) Cell.Dead =
        if (ρ = r ∨ ρ = (r + 1) % u.height) ∧
            (γ = c ∨ γ = (c + 1) % u.width)
        then Cell.Alive else Cell.Dead)
    (ρ γ : Nat) (hρ : ρ < u.height) (hγ : γ < u.width) :
    u.live_neighbor_count ρ γ =
      ((if (ρ + u.height - r) % u.height = 1 ∨
            (ρ + u.height - r) % u.height = 2 then 1 else 0) +
        (if (ρ + u.height - r) % u.height = 0 ∨
            (ρ + u.height - r) % u.height = 1 then 1 else 0) +
        (if (ρ + u.height - r) % u.height = u.height - 1 ∨
            (ρ + u.height - r) % u.height = 0 then 1 else 0)) *
      ((if (γ + u.width - c) % u.width = 1 ∨
            (γ + u.width - c) % u.width = 2 then 1 else 0) +
        (if (γ + u.width - c) % u.width = 0 ∨
            (γ + u.width - c) % u.width = 1 then 1 else 0) +
        (if (γ + u.width - c) % u.width = u.width - 1 ∨
            (γ + u.width - c) % u.width = 0 then 1 else 0)) -
      (if ((ρ + u.height - r) % u.height = 0 ∨
            (ρ + u.height - r) % u.height = 1) ∧
          ((γ + u.width - c) % u.width = 0 ∨
            (γ + u.width - c) % u.width = 1) then 1 else 0) := by
  rw [lnc_factored u (fun x => x = r ∨ x = (r + 1) % u.height)
    (fun y => y = c ∨ y = (c + 1) % u.width) (by omega) (by omega) hcell
    ρ γ hρ hγ]
  simp only [hitM0 u.height ρ r hh hρ hr, hit00 u.height ρ r hh hρ hr,
    hit10 u.height ρ r hh hρ hr, hitM1 u.height ρ r hh hρ hr,
    hit01 u.height ρ r hh hρ hr, hit11 u.height ρ r hh hρ hr,
    hitM0 u.width γ c hw hγ hc, hit00 u.width γ c hw hγ hc,
    hit10 u.width γ c hw hγ hc, hitM1 u.width γ c hw hγ hc,
    hit01 u.width γ c hw hγ hc, hit11 u.width γ c hw hγ hc]

/-- C7 counterexample: the claim quantifies over every grid containing an
all-Alive 2 by 2 block with all other cells Dead, and fails on small grids.
On the 2 by 2 grid that is entirely the block, each cell counts 8 live
neighbors (not 3) and tick kills every cell, so the configuration is not a
fixed point; the 2 by 3 grid with the block in its left two columns also
dies out. -/
theorem C7_counterexample :
    (Universe.mk 2 2 [Cell.Alive, Cell.Alive, Cell.Alive, Cell.Alive]).live_neighbor_count 0 0 = 8 ∧
    (Universe.mk 2 2 [Cell.Alive, Cell.Alive, Cell.Alive, Cell.Alive]).tick.cells ≠
      (Universe.mk 2 2 [Cell.Alive, Cell.Alive, Cell.Alive, Cell.Alive]).cells ∧
    (Universe.mk 2 3 [Cell.Alive, Cell.Alive, Cell.Dead,
      Cell.Alive, Cell.Alive, Cell.Dead]).tick.cells ≠
      (Universe.mk 2 3 [Cell.Alive, Cell.Alive, Cell.Dead,
        Cell.Alive, Cell.Alive, Cell.Dead]).cells := by
  refine ⟨by decide, by decide, by decide⟩

/-- C7 amended: on every grid with width and height at least 3 whose cells
form exactly an all-Alive 2 by 2 block at rows r, (r + 1) % height and
columns c, (c + 1) % width (wraparound placements included) with all other
cells Dead, each of the four block cells has exactly 3 live neighbors and
tick is a fixed point: the cell buffer after tick equals the buffer before
it. -/
theorem C7_block_still_life (u : Universe) (r c : Nat)
    (hh : 3 ≤ u.height) (hw : 3 ≤ u.width) (hr : r < u.height)
    (hc : c < u.width) (hlen : u.cells.length = u.width * u.height)
    (hcell : ∀ ρ, ρ < u.height → ∀ γ, γ < u.width →
      u.cells.getD (u.get_index ρ γ) Cell.Dead =
        if (ρ = r ∨ ρ = (r + 1) % u.height) ∧
            (γ = c ∨ γ = (c + 1) % u.width)
        then Cell.Alive else Cell.Dead) :
    (∀ ρ, ρ < u.height → ∀ γ, γ < u.width →
      (ρ = r ∨ ρ = (r + 1) % u.height) → (γ = c ∨ γ = (c + 1) % u.width) →
      u.live_neighbor_count ρ γ = 3) ∧
    u.tick.cells = u.cells := by
  constructor
  · intro ρ hρ γ hγ hbρ hbγ
    rw [block_lnc u r c hh hw hr hc hcell ρ γ hρ hγ]
    rw [hit00 u.height ρ r hh hρ hr, hit01 u.height ρ r hh hρ hr] at hbρ
    rw [hit00 u.width γ c hw hγ hc, hit01 u.width γ c hw hγ hc] at hbγ
    have h1 : (ρ + u.height - r) % u.height < u.height :=
      Nat.mod_lt _ (by omega)
    have h2 : (γ + u.width - c) % u.width < u.width :=
      Nat.mod_lt _ (by omega)
    split_ifs <;> omega
  · refine tick_cells_eq_of_pointwise u (by omega) hlen ?_
    intro ρ hρ γ hγ
    rw [tick_getD u hlen hρ hγ]
    unfold Universe.writeVal
    rw [hcell ρ hρ γ hγ, block_lnc u r c hh hw hr hc hcell ρ γ hρ hγ]
    simp only [hit00 u.height ρ r hh hρ hr, hit01 u.height ρ r hh hρ hr,
      hit00 u.width γ c hw hγ hc, hit01 u.width γ c hw hγ hc]
    have h1 : (ρ + u.height - r) % u.height < u.height :=
      Nat.mod_lt _ (by omega)
    have h2 : (γ + u.width - c) % u.width < u.width :=
      Nat.mod_lt _ (by omega)
    split_ifs <;> first | rfl | decide | (exfalso; omega)

/-! ### The blinker -/

theorem blinker_h_lnc (u : Universe) (r c : Nat)
    (hh : 5 ≤ u.height) (hw : 5 ≤ u.width) (hr : r < u.height)
    (hc1 : 1 ≤ c) (hc2 : c + 1 < u.width)
    (hcell : ∀ ρ, ρ < u.height → ∀ γ, γ < u.width →
      u.cells.getD (u.get_index ρ γ) Cell.Dead =
        if ρ = r ∧ (γ = c - 1 ∨ γ = c ∨ γ = c + 1)
        then Cell.Alive else Cell.Dead)
    (ρ γ : Nat) (hρ : ρ < u.height) (hγ : γ < u.width) :
    u.live_neighbor_count ρ γ =
      ((if (ρ + u.height - r) % u.height = 1 then 1 else 0) +
        (if (ρ + u.height - r) % u.height = 0 then 1 else 0) +
        (if (ρ + u.height - r) % u.height = u.height - 1 then 1 else 0)) *
      ((if (γ + u.width - c) % u.width = 0 ∨ (γ + u.width - c) % u.width = 1 ∨
            (γ + u.width - c) % u.width = 2 then 1 else 0) +
        (if (γ + u.width - c) % u.width = u.width - 1 ∨
            (γ + u.width - c) % u.width = 0 ∨
            (γ + u.width - c) % u.width = 1 then 1 else 0) +
        (if (γ + u.width - c) % u.width = u.width - 2 ∨
            (γ + u.width - c) % u.width = u.width - 1 ∨
            (γ + u.width - c) % u.width = 0 then 1 else 0)) -
      (if (ρ + u.height - r) % u.height = 0 ∧
          ((γ + u.width - c) % u.width = u.width - 1 ∨
            (γ + u.width - c) % u.width = 0 ∨
            (γ + u.width - c) % u.width = 1) then 1 else 0) := by
  rw [lnc_factored u (fun x => x = r)
    (fun y => y = c - 1 ∨ y = c ∨ y = c + 1) (by omega) (by omega) hcell
    ρ γ hρ hγ]
  rw [show c - 1 = (c + (u.width - 1)) % u.width from
      (wrap_pred_interior u.width c hc1 (by omega)).symm,
    show c + 1 = (c + 1) % u.width from (Nat.mod_eq_of_lt hc2).symm]
  simp only [hitM0 u.height ρ r (by omega) hρ hr,
    hit00 u.height ρ r (by omega) hρ hr,
    hit10 u.height ρ r (by omega) hρ hr,
    hitMM u.width γ c (by omega) hγ (by omega),
    hitM0 u.width γ c (by omega) hγ (by omega),
    hitM1 u.width γ c (by omega) hγ (by omega),
    hit0M u.width γ c (by omega) hγ (by omega),
    hit00 u.width γ c (by omega) hγ (by omega),
    hit01 u.width γ c (by omega) hγ (by omega),
    hit1M u.width γ c (by omega) hγ (by omega),
    hit10 u.width γ c (by omega) hγ (by omega),
    hit11 u.width γ c (by omega) hγ (by omega)]

theorem tick_blinker_horizontal (u : Universe) (r c : Nat)
    (hh : 5 ≤ u.height) (hw : 5 ≤ u.width) (hr : r < u.height)
    (hc1 : 1 ≤ c) (hc2 : c + 1 < u.width)
    (hlen : u.cells.length = u.width * u.height)
    (hcell : ∀ ρ, ρ < u.height → ∀ γ, γ < u.width →
      u.cells.getD (u.get_index ρ γ) Cell.Dead =
        if ρ = r ∧ (γ = c - 1 ∨ γ = c ∨ γ = c + 1)
        then Cell.Alive else Cell.Dead) :
    ∀ ρ, ρ < u.height → ∀ γ, γ < u.width →
      u.tick.cells.getD (u.get_index ρ γ) Cell.Dead =
        if (ρ = (r + (u.height - 1)) % u.height ∨ ρ = r ∨
            ρ = (r + 1) % u.height) ∧ γ = c
        then Cell.Alive else Cell.Dead := by
  intro ρ hρ γ hγ
  rw [tick_getD u hlen hρ hγ]
  unfold Universe.writeVal
  rw [hcell ρ hρ γ hγ,
    blinker_h_lnc u r c hh hw hr hc1 hc2 hcell ρ γ hρ hγ,
    show c - 1 = (c + (u.width - 1)) % u.width from
      (wrap_pred_interior u.width c hc1 (by omega)).symm,
    show c + 1 = (c + 1) % u.width from (Nat.mod_eq_of_lt hc2).symm]
  simp only [hit00 u.height ρ r (by omega) hρ hr,
    hit0M u.height ρ r (by omega) hρ hr,
    hit01 u.height ρ r (by omega) hρ hr,
    hit0M u.width γ c (by omega) hγ (by omega),
    hit00 u.width γ c (by omega) hγ (by omega),
    hit01 u.width γ c (by omega) hγ (by omega)]
  have h1 : (ρ + u.height - r) % u.height < u.height :=
    Nat.mod_lt _ (by omega)
  have h2 : (γ + u.width - c) % u.width < u.width :=
    Nat.mod_lt _ (by omega)
  split_ifs <;> first | rfl | decide | (exfalso; omega)

theorem blinker_v_lnc (u : Universe) (r c : Nat)
    (hh : 5 ≤ u.height) (hw : 5 ≤ u.width) (hr : r < u.height)
    (hc : c < u.width)
    (hcell : ∀ ρ, ρ < u.height → ∀ γ, γ < u.width →
      u.cells.getD (u.get_index ρ γ) Cell.Dead =
        if (ρ = (r + (u.height - 1)) % u.height ∨ ρ = r ∨
            ρ = (r + 1) % u.height) ∧ γ = c
        then Cell.Alive else Cell.Dead)
    (ρ γ : Nat) (hρ : ρ < u.height) (hγ : γ < u.width) :
    u.live_neighbor_count ρ γ =
      ((if (ρ + u.height - r) % u.height = 0 ∨
            (ρ + u.height - r) % u.height = 1 ∨
            (ρ + u.height - r) % u.height = 2 then 1 else 0) +
        (if (ρ + u.height - r) % u.height = u.height - 1 ∨
            (ρ + u.height - r) % u.height = 0 ∨
            (ρ + u.height - r) % u.height = 1 then 1 else 0) +
        (if (ρ + u.height - r) % u.height = u.height - 2 ∨
            (ρ + u.height - r) % u.height = u.height - 1 ∨
            (ρ + u.height - r) % u.height = 0 then 1 else 0)) *
      ((if (γ + u.width - c) % u.width = 1 then 1 else 0) +
        (if (γ + u.width - c) % u.width = 0 then 1 else 0) +
        (if (γ + u.width - c) % u.width = u.width - 1 then 1 else 0)) -
      (if ((ρ + u.height - r) % u.height = u.height - 1 ∨
            (ρ + u.height - r) % u.height = 0 ∨
            (ρ + u.height - r) % u.height = 1) ∧
          (γ + u.width - c) % u.width = 0 then 1 else 0) := by
  rw [lnc_factored u
    (fun x => x = (r + (u.height - 1)) % u.height ∨ x = r ∨
      x = (r + 1) % u.height)
    (fun y => y = c) (by omega) (by omega) hcell ρ γ hρ hγ]
  simp only [hitMM u.height ρ r (by omega) hρ hr,
    hitM0 u.height ρ r (by omega) hρ hr,
    hitM1 u.height ρ r (by omega) hρ hr,
    hit0M u.height ρ r (by omega) hρ hr,
    hit00 u.height ρ r (by omega) hρ hr,
    hit01 u.height ρ r (by omega) hρ hr,
    hit1M u.height ρ r (by omega) hρ hr,
    hit10 u.height ρ r (by omega) hρ hr,
    hit11 u.height ρ r (by omega) hρ hr,
    hitM0 u.width γ c (by omega) hγ hc,
    hit00 u.width γ c (by omega) hγ hc,
    hit10 u.width γ c (by omega) hγ hc]

theorem tick_blinker_vertical (u : Universe) (r c : Nat)
    (hh : 5 ≤ u.height) (hw : 5 ≤ u.width) (hr : r < u.height)
    (hc1 : 1 ≤ c) (hc2 : c + 1 < u.width)
    (hlen : u.cells.length = u.width * u.height)
    (hcell : ∀ ρ, ρ < u.height → ∀ γ, γ < u.width →
      u.cells.getD (u.get_index ρ γ) Cell.Dead =
        if (ρ = (r + (u.height - 1)) % u.height ∨ ρ = r ∨
            ρ = (r + 1) % u.height) ∧ γ = c
        then Cell.Alive else Cell.Dead) :
    ∀ ρ, ρ < u.height → ∀ γ, γ < u.width →
      u.tick.cells.getD (u.get_index ρ γ) Cell.Dead =
        if ρ = r ∧ (γ = c - 1 ∨ γ = c ∨ γ = c + 1)
        then Cell.Alive else Cell.Dead := by
  intro ρ hρ γ hγ
  rw [tick_getD u hlen hρ hγ]
  unfold Universe.writeVal
  rw [hcell ρ hρ γ hγ,
    blinker_v_lnc u r c hh hw hr (by omega) hcell ρ γ hρ hγ,
    show c - 1 = (c + (u.width - 1)) % u.width from
      (wrap_pred_interior u.width c hc1 (by omega)).symm,
    show c + 1 = (c + 1) % u.width from (Nat.mod_eq_of_lt hc2).symm]
  simp only [hit0M u.height ρ r (by omega) hρ hr,
    hit00 u.height ρ r (by omega) hρ hr,
    hit01 u.height ρ r (by omega) hρ hr,
    hit0M u.width γ c (by omega) hγ (by omega),
    hit00 u.width γ c (by omega) hγ (by omega),
    hit01 u.width γ c (by omega) hγ (by omega)]
  have h1 : (ρ + u.height - r) % u.height < u.height :=
    Nat.mod_lt _ (by omega)
  have h2 : (γ + u.width - c) % u.width < u.width :=
    Nat.mod_lt _ (by omega)
  split_ifs <;> first | rfl | decide | (exfalso; omega)

/-- Witness for the amended C7 on the concrete 3 by 3 block grid. -/
theorem C7_witness :
    (3 ≤ block3.height ∧ block3.cells.length = block3.width * block3.height) ∧
    block3.live_neighbor_count 0 0 = 3 ∧
    block3.tick.cells = block3.cells :=
  ⟨⟨by decide, by decide⟩,
    (C7_block_still_life block3 0 0 (by decide) (by decide) (by decide)
      (by decide) (by decide) (by decide)).1 0 (by decide) 0 (by decide)
      (by decide) (by decide),
    (C7_block_still_life block3 0 0 (by decide) (by decide) (by decide)
      (by decide) (by decide) (by decide)).2⟩

theorem buffers_eq_of_pointwise (u : Universe) (l1 l2 : List Cell)
    (hw : 0 < u.width)
    (hl1 : l1.length = u.width * u.height)
    (hl2 : l2.length = u.width * u.height)
    (h : ∀ ρ, ρ < u.height → ∀ γ, γ < u.width →
      l1.getD (u.get_index ρ γ) Cell.Dead =
        l2.getD (u.get_index ρ γ) Cell.Dead) :
    l1 = l2 := by
  refine cells_eq_of_getD _ _ (by rw [hl1, hl2]) ?_
  intro j hj
  rw [hl1] at hj
  have hj' : j < u.height * u.width := by
    rw [Nat.mul_comm]
    exact hj
  have hρ : j / u.width < u.height := by
    rw [Nat.div_lt_iff_lt_mul hw]
    exact hj'
  have hγ : j % u.width < u.width := Nat.mod_lt _ hw
  have hidx : u.get_index (j / u.width) (j % u.width) = j := by
    unfold Universe.get_index
    rw [Nat.mul_comm]
    exact Nat.div_add_mod j u.width
  have hpt := h (j / u.width) hρ (j % u.width) hγ
  rw [hidx] at hpt
  exact hpt

/-- C8: on every grid of dimensions at least 5 by 5 whose cells form
exactly a horizontal three-cell blinker (Alive at columns c - 1, c, c + 1
of row r, all other cells Dead, with the three columns in range and the row
arbitrary), one tick yields exactly the vertical three-cell line centered
at (r, c) (rows r - 1, r, r + 1 taken toroidally, column c), and a second
tick restores exactly the original horizontal configuration, cell for
cell. -/
theorem C8_blinker_period_two (u : Universe) (r c : Nat)
    (hh : 5 ≤ u.height) (hw : 5 ≤ u.width) (hr : r < u.height)
    (hc1 : 1 ≤ c) (hc2 : c + 1 < u.width)
    (hlen : u.cells.length = u.width * u.height)
    (hcell : ∀ ρ, ρ < u.height → ∀ γ, γ < u.width →
      u.cells.getD (u.get_index ρ γ) Cell.Dead =
        if ρ = r ∧ (γ = c - 1 ∨ γ = c ∨ γ = c + 1)
        then Cell.Alive else Cell.Dead) :
    (∀ ρ, ρ < u.height → ∀ γ, γ < u.width →
      u.tick.cells.getD (u.get_index ρ γ) Cell.Dead =
        if (ρ = (r + (u.height - 1)) % u.height ∨ ρ = r ∨
            ρ = (r + 1) % u.height) ∧ γ = c
        then Cell.Alive else Cell.Dead) ∧
    u.tick.tick.cells = u.cells := by
  have hvert := tick_blinker_horizontal u r c hh hw hr hc1 hc2 hlen hcell
  refine ⟨hvert, ?_⟩
  have hlen1 : u.tick.cells.length = u.width * u.height := by
    rw [tick_length]
    exact hlen
  have hhor := tick_blinker_vertical u.tick r c hh hw hr hc1 hc2 hlen1 hvert
  refine buffers_eq_of_pointwise u _ _ (by omega)
    (by rw [tick_length, tick_length]; exact hlen) hlen ?_
  intro ρ hρ γ hγ
  exact (hhor ρ hρ γ hγ).trans (hcell ρ hρ γ hγ).symm

/-- Witness for C8 on the concrete 5 by 5 blinker grid: after one tick the
cell at row 1, column 2 is Alive (part of the vertical line), and two ticks
restore the original buffer. -/
theorem C8_witness :
    (5 ≤ blinker5.height ∧
      blinker5.cells.length = blinker5.width * blinker5.height) ∧
    blinker5.tick.cells.getD (blinker5.get_index 1 2) Cell.Dead =
      (if ((1 : Nat) = (2 + (blinker5.height - 1)) % blinker5.height ∨
          (1 : Nat) = 2 ∨ (1 : Nat) = (2 + 1) % blinker5.height) ∧
          (2 : Nat) = 2
        then Cell.Alive else Cell.Dead) ∧
    blinker5.tick.tick.cells = blinker5.cells :=
  ⟨⟨by decide, by decide⟩,
    (C8_blinker_period_two blinker5 2 2 (by decide) (by decide) (by decide)
      (by decide) (by decide) (by decide) (by decide)).1 1 (by decide) 2
      (by decide),
    (C8_blinker_period_two blinker5 2 2 (by decide) (by decide) (by decide)
      (by decide) (by decide) (by decide) (by decide)).2⟩
